import Mathlib

/-!
Shallow embedding of the validation module shapash/utils/check.py.

Each Python function of the module is translated to a Lean definition over
explicit data types modelling the Python values the function inspects:

* a model object is modelled by which capabilities it exposes
  (the attributes `predict`, `predict_proba`, `classes_`, `_classes`);
* pandas objects are modelled by their index, columns and dtypes;
* Python dictionaries are modelled by association lists;
* a raised error is modelled by `Except.error` carrying a constructor of
  `CheckError` naming the raise site by the error taxonomy of the design
  document (the Python code raises `ValueError` everywhere; the taxonomy
  distinguishes the raise sites).
-/

set_option autoImplicit false

namespace ShapashCheck

/-- Error taxonomy of the validation layer. One constructor per kind of
raise site. `pyTypeError` and `keyError` model genuine Python interpreter
errors (`set(None)`, `len(None)`, `dtypes[0]` on a zero-column frame)
rather than deliberate raise statements. -/
inductive CheckError where
  | unsupportedModel
  | inconsistentDictionary
  | lengthMismatch
  | typeShape
  | invalidConfig
  | unsupportedEncoder
  | typeError
  | indexMismatch
  | keyError
  | pyTypeError
  deriving DecidableEq

/-- Problem kind returned by `check_model`: the strings `classification`
and `regression` of the Python code. -/
inductive Case where
  | classification
  | regression
  deriving DecidableEq

/-- Value held by a class-set attribute of a model: Python `None`, a plain
list of labels, or a numpy array of labels (normalised by `.tolist()` in
`check_model`). Labels are modelled by integers. -/
inductive PyClasses where
  | pynone
  | pylist (xs : List Int)
  | ndarray (xs : List Int)
  deriving DecidableEq

/-- A model object, modelled by the capabilities `check_model` probes:
whether the attributes `predict` and `predict_proba` exist, and whether
the attributes `_classes` and `classes_` exist together with their values
(`none` means the attribute is absent; `some PyClasses.pynone` means the
attribute exists and holds Python `None`). -/
structure Model where
  hasPredict : Bool
  hasPredictProba : Bool
  uclasses : Option PyClasses
  classes_ : Option PyClasses
  deriving DecidableEq

/-- The value of a class-set attribute after the `.tolist()` normalisation
of `check_model`: an ndarray is converted to its list of entries. -/
def attrToList : PyClasses → Option (List Int)
  | PyClasses.pynone => none
  | PyClasses.pylist xs => some xs
  | PyClasses.ndarray xs => some xs

/-- The local variable `_classes` of `check_model` after the attribute
probing: initialised to `None`, overwritten by the attribute `_classes`
when it exists, then overwritten by the attribute `classes_` when it
exists, then normalised from ndarray to list. -/
def resolvedClasses (m : Model) : Option (List Int) :=
  let c1 : Option (List Int) :=
    match m.uclasses with
    | some v => attrToList v
    | none => none
  match m.classes_ with
  | some v => attrToList v
  | none => c1

/-- The local variable `_classes` after the additional coercion of
`check_model`: when the model has `predict_proba` and the resolved class
set is the empty list, it is replaced by `[0, 1]` (catboost binary). -/
def coercedClasses (m : Model) : Option (List Int) :=
  if m.hasPredictProba = true ∧ resolvedClasses m = some [] then some [0, 1]
  else resolvedClasses m

/-- Embedding of `check_model` (shapash/utils/check.py). Returns the
problem kind together with the class label list, or the error of a raise
site. -/
def check_model (m : Model) : Except CheckError (Case × Option (List Int)) :=
  if m.hasPredict = true then
    if m.hasPredictProba = true ∨ m.uclasses.isSome = true ∨ m.classes_.isSome = true then
      if m.hasPredictProba = true ∧ coercedClasses m = none then
        Except.error CheckError.unsupportedModel
      else if coercedClasses m ≠ none ∧ coercedClasses m ≠ some [] then
        Except.ok (Case.classification, coercedClasses m)
      else
        Except.ok (Case.regression, none)
    else
      Except.ok (Case.regression, none)
  else
    Except.error CheckError.unsupportedModel

/-- Embedding of `check_label_dict` (shapash/utils/check.py). The label
dictionary maps class labels to display names; only its key set is
inspected. When the dictionary is present, the case is classification and
`classes` is Python `None`, the Python code evaluates `set(None)` and the
interpreter raises `TypeError`; this is the `pyTypeError` branch. -/
def check_label_dict (label_dict : Option (List (Int × String))) (case : String)
    (classes : Option (List Int)) : Except CheckError Unit :=
  match label_dict with
  | none => Except.ok ()
  | some d =>
    if case = "classification" then
      match classes with
      | none => Except.error CheckError.pyTypeError
      | some cs =>
        if cs.toFinset ≠ (d.map Prod.fst).toFinset then
          Except.error CheckError.inconsistentDictionary
        else
          Except.ok ()
    else
      Except.ok ()

/-- The argument of `check_mask_params`: either not a Python dict at all,
or a dict with the given list of keys (only the keys are inspected). -/
inductive MaskParamsArg where
  | notDict
  | pydict (keys : List String)
  deriving DecidableEq

/-- The fixed key set accepted by `check_mask_params`. -/
def conform_arguments : List String :=
  ["features_to_hide", "threshold", "positive", "max_contrib"]

/-- Embedding of `check_mask_params` (shapash/utils/check.py). -/
def check_mask_params (mask_params : MaskParamsArg) : Except CheckError Unit :=
  match mask_params with
  | MaskParamsArg.notDict => Except.error CheckError.typeError
  | MaskParamsArg.pydict keys =>
    let mask_arguments_not_conform :=
      keys.filter (fun argument => !(conform_arguments.contains argument))
    if mask_arguments_not_conform.length ≠ 0 then
      Except.error CheckError.invalidConfig
    else
      Except.ok ()

/-- Declared element type of a pandas column or series, as compared by the
Python code against `[np.float, np.int]`. -/
inductive Dtype where
  | npInt
  | npFloat
  | otherD
  deriving DecidableEq

/-- The dtype comparison `dtype in [np.float, np.int]`. -/
def numericDtype : Dtype → Bool
  | Dtype.npInt => true
  | Dtype.npFloat => true
  | Dtype.otherD => false

/-- A pandas DataFrame, modelled by its row index and its columns, each
column carrying its dtype and values. Index entries and cell values are
modelled by integers. -/
structure DFrame where
  index : List Int
  cols : List (Dtype × List Int)
  deriving DecidableEq

/-- A pandas Series, modelled by its row index, dtype and values. -/
structure PSeries where
  index : List Int
  dtype : Dtype
  values : List Int
  deriving DecidableEq

/-- The `to_frame` conversion of a series: a one-column frame with the
same index and values. -/
def PSeries.toFrame (s : PSeries) : DFrame :=
  ⟨s.index, [(s.dtype, s.values)]⟩

/-- A candidate `ypred` value: a DataFrame, a Series, or any other Python
object (rejected by the isinstance check). -/
inductive YpredVal where
  | frame (df : DFrame)
  | series (s : PSeries)
  | nonTabular
  deriving DecidableEq

/-- Embedding of `check_ypred` (shapash/utils/check.py). `keyError` models
the interpreter error of `ypred.dtypes[0]` on a frame with no column. -/
def check_ypred (x : DFrame) (ypred : Option YpredVal) : Except CheckError (Option DFrame) :=
  match ypred with
  | none => Except.ok none
  | some v =>
    match v with
    | YpredVal.nonTabular => Except.error CheckError.typeError
    | YpredVal.frame df =>
      if df.index ≠ x.index then Except.error CheckError.indexMismatch
      else if df.cols.length > 1 then Except.error CheckError.typeError
      else
        match df.cols.head? with
        | none => Except.error CheckError.keyError
        | some c =>
          if numericDtype c.1 = true then Except.ok (some df)
          else Except.error CheckError.typeError
    | YpredVal.series s =>
      if s.index ≠ x.index then Except.error CheckError.indexMismatch
      else if numericDtype s.dtype = true then Except.ok (some s.toFrame)
      else Except.error CheckError.typeError

/-- A candidate contributions object, modelled by its container kind: a
numpy array, a DataFrame, a Python list of a given length, or any other
object. The Python code inspects only the container kind and, for a list,
its length, never the elements. -/
inductive ContribObj where
  | ndarray
  | dframe
  | clist (n : Nat)
  | otherObj
  deriving DecidableEq

/-- The isinstance check against `(np.ndarray, pd.DataFrame)`. -/
def isArrayOrFrame : ContribObj → Bool
  | ContribObj.ndarray => true
  | ContribObj.dframe => true
  | _ => false

/-- The isinstance check against `list`. -/
def isPyList : ContribObj → Bool
  | ContribObj.clist _ => true
  | _ => false

/-- Embedding of `check_contribution_object` (shapash/utils/check.py).
When the case is classification, the contributions are a list and
`classes` is Python `None`, the code evaluates `len(None)` and the
interpreter raises `TypeError`; this is the `pyTypeError` branch. -/
def check_contribution_object (case : String) (classes : Option (List Int))
    (contributions : ContribObj) : Except CheckError Unit :=
  if case = "regression" ∧ isArrayOrFrame contributions = false then
    Except.error CheckError.typeShape
  else if case = "classification" then
    match contributions with
    | ContribObj.clist n =>
      match classes with
      | some cs =>
        if n ≠ cs.length then Except.error CheckError.lengthMismatch
        else Except.ok ()
      | none => Except.error CheckError.pyTypeError
    | _ => Except.error CheckError.typeShape
  else
    Except.ok ()

/-- Classification of a preprocessing value by the static type-name
reference sets used in check.py. `pnone` is Python `None`;
`categoryEncoder` is a type listed in `no_dummies_category_encoder`;
`sklearnOrCT` a type listed in `no_dummies_sklearn` or `columntransformer`;
`unknownEnc` any other non-None value. -/
inductive Preproc where
  | pnone
  | categoryEncoder
  | sklearnOrCT
  | unknownEnc
  deriving DecidableEq

/-- Mask parameters as read by `check_consistency_model_features`: only
the entry `features_to_hide` is inspected there. -/
structure MaskParams where
  features_to_hide : Option (List String)
  deriving DecidableEq

/-- Step 1 of `check_consistency_model_features`: when a features
dictionary is present, every key of it must be a key of the features-types
mapping. -/
def featuresDictConform : Option (List (String × String)) → List (String × String) → Bool
  | none, _ => true
  | some fd, fts => fd.all (fun kv => (fts.map Prod.fst).contains kv.1)

/-- Step 3 of `check_consistency_model_features`: when mask parameters are
present with a non-null `features_to_hide`, every listed feature must be a
key of the features-types mapping. -/
def maskFeaturesConform : Option MaskParams → List (String × String) → Bool
  | none, _ => true
  | some mp, fts =>
    match mp.features_to_hide with
    | none => true
    | some fh => fh.all (fun f => (fts.map Prod.fst).contains f)

/-- Embedding of `check_consistency_model_features`
(shapash/utils/check.py). The call
`extract_features_model(model, dict_model_feature[str(type(model))])` is a
collaborator outside this module; its result, either a list of expected
feature names or a plain feature count, is taken as the argument
`model_features`, and the type-name family of the preprocessing argument
is taken as a `Preproc` value. -/
def check_consistency_model_features
    (features_dict : Option (List (String × String)))
    (model_features : Sum (List String) Nat)
    (columns_dict : List (Nat × String))
    (features_types : List (String × String))
    (mask_params : Option MaskParams)
    (preprocessing : Preproc) : Except CheckError Unit :=
  if featuresDictConform features_dict features_types = false then
    Except.error CheckError.inconsistentDictionary
  else if (features_types.map Prod.fst).toFinset ≠ (columns_dict.map Prod.snd).toFinset then
    Except.error CheckError.inconsistentDictionary
  else if maskFeaturesConform mask_params features_types = false then
    Except.error CheckError.inconsistentDictionary
  else
    match model_features with
    | Sum.inl fs =>
      match preprocessing with
      | Preproc.categoryEncoder =>
        if (columns_dict.map Prod.snd).toFinset ≠ fs.toFinset then
          Except.error CheckError.inconsistentDictionary
        else Except.ok ()
      | Preproc.sklearnOrCT =>
        if (columns_dict.map Prod.snd).toFinset.card ≠ fs.toFinset.card then
          Except.error CheckError.lengthMismatch
        else Except.ok ()
      | Preproc.pnone => Except.ok ()
      | Preproc.unknownEnc => Except.error CheckError.unsupportedEncoder
    | Sum.inr n =>
      if (columns_dict.map Prod.snd).toFinset.card ≠ n then
        Except.error CheckError.lengthMismatch
      else Except.ok ()

/-- A preprocessing specification as seen by `check_preprocessing`,
reduced to the information the collaborators report about it. -/
structure PreprocSpecInfo where
  usesCT : Bool
  usesCE : Bool
  deriving DecidableEq

/-- Modelled from the spec: `check_transformers`
(shapash/utils/transform.py, not part of the sources under review)
classifies the flattened transformer sequence and produces the two boolean
flags uses-combining-transformer and uses-category-encoder. -/
def check_transformers (p : PreprocSpecInfo) : Bool × Bool :=
  (p.usesCT, p.usesCE)

/-- A Python return value of `check_preprocessing`: the bare `None`
produced by falling off the end of the function, or a tuple of two
values each of which is a boolean or `None`. -/
inductive PrepRet where
  | pynone
  | tuple (use_ct : Option Bool) (use_ce : Option Bool)
  deriving DecidableEq

/-- Embedding of `check_preprocessing` (shapash/utils/check.py). When the
argument is not `None` the function returns the tuple of the two flags;
otherwise control falls off the end of the Python function body, which
returns the bare value `None`. -/
def check_preprocessing (preprocessing : Option PreprocSpecInfo) : PrepRet :=
  match preprocessing with
  | some p =>
    let r := check_transformers p
    PrepRet.tuple (some r.1) (some r.2)
  | none => PrepRet.pynone

/-! ### Theorems about the embedded validators -/

/-- C3: for every label dictionary present and case classification,
`check_label_dict` raises the inconsistent-dictionary error if and only if
the key set of the dictionary differs, as a set, from the class label set;
it never raises when the dictionary is absent, and never when the case is
regression. -/
theorem check_label_dict_spec :
    (∀ (d : List (Int × String)) (cs : List Int),
      check_label_dict (some d) "classification" (some cs) =
          Except.error CheckError.inconsistentDictionary ↔
        cs.toFinset ≠ (d.map Prod.fst).toFinset) ∧
    (∀ (case : String) (classes : Option (List Int)),
      check_label_dict none case classes = Except.ok ()) ∧
    (∀ (d : Option (List (Int × String))) (classes : Option (List Int)),
      check_label_dict d "regression" classes = Except.ok ()) := by
  refine ⟨?_, ?_, ?_⟩
  · intro d cs
    simp only [check_label_dict, if_pos rfl]
    by_cases h : cs.toFinset ≠ (d.map Prod.fst).toFinset
    · rw [if_pos h]
      exact iff_of_true rfl h
    · rw [if_neg h]
      exact iff_of_false (fun hc => Except.noConfusion hc) h
  · intro case classes; rfl
  · intro d classes
    cases d with
    | none => rfl
    | some d =>
      simp only [check_label_dict]
      rw [if_neg (by decide)]

/-- C4: `check_contribution_object` in the regression case raises the
type-shape error for every contributions value that is not a numpy array
or a DataFrame and accepts a plain DataFrame; in the classification case
with class list `cs` it raises the type-shape error for every non-list
value, accepts a list of length equal to the number of classes, and raises
the length-mismatch error for a list of any other length. -/
theorem check_contribution_object_spec :
    (∀ (classes : Option (List Int)) (c : ContribObj), isArrayOrFrame c = false →
      check_contribution_object "regression" classes c = Except.error CheckError.typeShape) ∧
    (∀ classes : Option (List Int),
      check_contribution_object "regression" classes ContribObj.dframe = Except.ok ()) ∧
    (∀ (cs : List Int) (c : ContribObj), isPyList c = false →
      check_contribution_object "classification" (some cs) c =
        Except.error CheckError.typeShape) ∧
    (∀ cs : List Int,
      check_contribution_object "classification" (some cs) (ContribObj.clist cs.length) =
        Except.ok ()) ∧
    (∀ (cs : List Int) (n : Nat), n ≠ cs.length →
      check_contribution_object "classification" (some cs) (ContribObj.clist n) =
        Except.error CheckError.lengthMismatch) := by
  refine ⟨?_, ?_, ?_, ?_, ?_⟩
  · intro classes c h
    unfold check_contribution_object
    rw [if_pos ⟨rfl, h⟩]
  · intro classes; rfl
  · intro cs c h
    cases c with
    | clist n => exact absurd h (by simp [isPyList])
    | ndarray =>
      unfold check_contribution_object
      rw [if_neg (by intro hc; exact absurd hc.1 (by decide)), if_pos rfl]
    | dframe =>
      unfold check_contribution_object
      rw [if_neg (by intro hc; exact absurd hc.1 (by decide)), if_pos rfl]
    | otherObj =>
      unfold check_contribution_object
      rw [if_neg (by intro hc; exact absurd hc.1 (by decide)), if_pos rfl]
  · intro cs
    unfold check_contribution_object
    rw [if_neg (by intro hc; exact absurd hc.1 (by decide)), if_pos rfl]
    show (if cs.length ≠ cs.length then Except.error CheckError.lengthMismatch
      else Except.ok ()) = Except.ok ()
    rw [if_neg (fun hn => hn rfl)]
  · intro cs n h
    unfold check_contribution_object
    rw [if_neg (by intro hc; exact absurd hc.1 (by decide)), if_pos rfl]
    show (if n ≠ cs.length then Except.error CheckError.lengthMismatch
      else Except.ok ()) = Except.error CheckError.lengthMismatch
    rw [if_pos h]

/-- C4 witness: a list of two frames is rejected for regression with the
type-shape error; a 2-element list for a 3-class model raises the
length-mismatch error. -/
theorem check_contribution_object_spec_witness :
    check_contribution_object "regression" none (ContribObj.clist 2) =
      Except.error CheckError.typeShape ∧
    check_contribution_object "classification" (some [1, 2, 3]) (ContribObj.clist 2) =
      Except.error CheckError.lengthMismatch :=
  ⟨check_contribution_object_spec.1 none (ContribObj.clist 2) rfl,
   check_contribution_object_spec.2.2.2.2 [1, 2, 3] 2 (by decide)⟩

/-- C10: for every case string other than regression and classification,
`check_contribution_object` returns without raising, whatever the classes
and contributions arguments are: an unknown problem kind silently skips
all contribution validation. -/
theorem check_contribution_unknown_case
    (case : String) (classes : Option (List Int)) (c : ContribObj)
    (h1 : case ≠ "regression") (h2 : case ≠ "classification") :
    check_contribution_object case classes c = Except.ok () := by
  unfold check_contribution_object
  rw [if_neg (fun hc => h1 hc.1), if_neg h2]

/-- C10 witness: a misspelled case skips validation of an arbitrary
object. -/
theorem check_contribution_unknown_case_witness :
    check_contribution_object "regresion" none ContribObj.otherObj = Except.ok () :=
  check_contribution_unknown_case "regresion" none ContribObj.otherObj
    (by decide) (by decide)

/-- C7: `check_mask_params` fails with the type error for a non-dict
argument; for a dict it raises the invalid-config error exactly when some
key lies outside the fixed recognised key set; the empty dict passes. -/
theorem check_mask_params_spec :
    (check_mask_params MaskParamsArg.notDict = Except.error CheckError.typeError) ∧
    (∀ keys : List String,
      (check_mask_params (MaskParamsArg.pydict keys) = Except.error CheckError.invalidConfig ↔
        ∃ k ∈ keys, k ∉ conform_arguments)) ∧
    (check_mask_params (MaskParamsArg.pydict []) = Except.ok ()) := by
  refine ⟨rfl, ?_, rfl⟩
  intro keys
  have hiff : (keys.filter (fun argument => !(conform_arguments.contains argument))).length ≠ 0 ↔
      ∃ k ∈ keys, k ∉ conform_arguments := by
    rw [Ne, List.length_eq_zero, List.filter_eq_nil_iff]
    push_neg
    simp
  have hval : check_mask_params (MaskParamsArg.pydict keys) =
      (if (keys.filter (fun argument => !(conform_arguments.contains argument))).length ≠ 0 then
        Except.error CheckError.invalidConfig else Except.ok ()) := rfl
  rw [hval]
  by_cases h : (keys.filter (fun argument => !(conform_arguments.contains argument))).length ≠ 0
  · rw [if_pos h]
    exact iff_of_true rfl (hiff.1 h)
  · rw [if_neg h]
    exact iff_of_false (fun hc => Except.noConfusion hc) (fun hex => h (hiff.2 hex))

/-- C9 counterexample: with no preprocessing supplied,
`check_preprocessing` returns the bare Python `None`, which is not the
pair `(None, None)` stated by the claim. -/
theorem check_preprocessing_pair_cex :
    check_preprocessing none = PrepRet.pynone ∧
    PrepRet.pynone ≠ PrepRet.tuple none none :=
  ⟨rfl, by decide⟩

/-- C9 amended: `check_preprocessing` returns the bare value `None` (not a
pair) when no preprocessing is supplied, and has no error paths of its
own: on every input it returns normally, producing the tuple of the two
collaborator flags when preprocessing is present. -/
theorem check_preprocessing_amended :
    check_preprocessing none = PrepRet.pynone ∧
    (∀ p : PreprocSpecInfo,
      check_preprocessing (some p) = PrepRet.tuple (some p.usesCT) (some p.usesCE)) :=
  ⟨rfl, fun _ => rfl⟩

/-- The coercion to the binary default never turns a missing class set
into a present one, nor the reverse. -/
theorem coercedClasses_eq_none_iff (m : Model) :
    coercedClasses m = none ↔ resolvedClasses m = none := by
  unfold coercedClasses
  split
  · rename_i h
    rw [h.2]
    simp
  · exact Iff.rfl

/-- Helper: the classification branch of `check_model`, shared by the
theorems about the classification outcome. -/
theorem check_model_ok_cls (m : Model) (hp : m.hasPredict = true)
    (hB : m.hasPredictProba = true ∨ m.uclasses.isSome = true ∨ m.classes_.isSome = true)
    (h1 : coercedClasses m ≠ none) (h2 : coercedClasses m ≠ some []) :
    check_model m = Except.ok (Case.classification, coercedClasses m) := by
  unfold check_model
  rw [if_pos hp, if_pos hB, if_neg (fun h => h1 h.2), if_pos ⟨h1, h2⟩]

/-- C1: `check_model` raises the unsupported-model error if and only if
the model exposes no predict capability, or it exposes predict_proba but
the class set resolves to Python None; in every other case it returns a
(problem kind, class labels) pair. -/
theorem check_model_raises_iff (m : Model) :
    (check_model m = Except.error CheckError.unsupportedModel ↔
      m.hasPredict = false ∨ (m.hasPredictProba = true ∧ resolvedClasses m = none)) ∧
    (m.hasPredict = true → (m.hasPredictProba = true → resolvedClasses m ≠ none) →
      ∃ p, check_model m = Except.ok p) := by
  constructor
  · by_cases hP : m.hasPredict = true
    · unfold check_model
      rw [if_pos hP]
      by_cases hB : m.hasPredictProba = true ∨ m.uclasses.isSome = true ∨ m.classes_.isSome = true
      · rw [if_pos hB]
        by_cases hE : m.hasPredictProba = true ∧ coercedClasses m = none
        · rw [if_pos hE]
          exact iff_of_true rfl (Or.inr ⟨hE.1, (coercedClasses_eq_none_iff m).1 hE.2⟩)
        · rw [if_neg hE]
          have hRHS : ¬(m.hasPredict = false ∨
              (m.hasPredictProba = true ∧ resolvedClasses m = none)) := by
            rintro (h | ⟨hpp, hres⟩)
            · rw [hP] at h; exact Bool.noConfusion h
            · exact hE ⟨hpp, (coercedClasses_eq_none_iff m).2 hres⟩
          by_cases hC : coercedClasses m ≠ none ∧ coercedClasses m ≠ some []
          · rw [if_pos hC]
            exact iff_of_false (fun h => Except.noConfusion h) hRHS
          · rw [if_neg hC]
            exact iff_of_false (fun h => Except.noConfusion h) hRHS
      · rw [if_neg hB]
        refine iff_of_false (fun h => Except.noConfusion h) ?_
        rintro (h | ⟨hpp, _⟩)
        · rw [hP] at h; exact Bool.noConfusion h
        · exact hB (Or.inl hpp)
    · have hP2 : m.hasPredict = false := by
        cases h : m.hasPredict
        · rfl
        · exact absurd h hP
      unfold check_model
      rw [if_neg hP]
      exact iff_of_true rfl (Or.inl hP2)
  · intro hp hcls
    unfold check_model
    rw [if_pos hp]
    by_cases hB : m.hasPredictProba = true ∨ m.uclasses.isSome = true ∨ m.classes_.isSome = true
    · rw [if_pos hB]
      by_cases hE : m.hasPredictProba = true ∧ coercedClasses m = none
      · exact absurd ((coercedClasses_eq_none_iff m).1 hE.2) (hcls hE.1)
      · rw [if_neg hE]
        by_cases hC : coercedClasses m ≠ none ∧ coercedClasses m ≠ some []
        · rw [if_pos hC]; exact ⟨_, rfl⟩
        · rw [if_neg hC]; exact ⟨_, rfl⟩
    · rw [if_neg hB]; exact ⟨_, rfl⟩

/-- A model exposing neither predict nor any class information. -/
def modelNoPredict : Model := ⟨false, false, none, none⟩

/-- A binary classifier exposing predict, predict_proba and classes_. -/
def modelBinary : Model := ⟨true, true, none, some (PyClasses.pylist [0, 1])⟩

/-- C1 witness: the no-predict model raises; the binary classifier
returns a pair. -/
theorem check_model_raises_iff_witness :
    check_model modelNoPredict = Except.error CheckError.unsupportedModel ∧
    ∃ p, check_model modelBinary = Except.ok p :=
  ⟨(check_model_raises_iff modelNoPredict).1.mpr (Or.inl rfl),
   (check_model_raises_iff modelBinary).2 rfl (fun _ => by decide)⟩

/-- A model with predict_proba and an empty class set, but without the
predict capability. -/
def modelProbaNoPredict : Model := ⟨false, true, none, some (PyClasses.pylist [])⟩

/-- C5 counterexample: a model exposing predict_proba with an empty class
set but no predict capability makes `check_model` raise the
unsupported-model error instead of returning classification with
`[0, 1]`. -/
theorem check_model_empty_classes_cex :
    check_model modelProbaNoPredict = Except.error CheckError.unsupportedModel ∧
    check_model modelProbaNoPredict ≠ Except.ok (Case.classification, some [0, 1]) := by
  refine ⟨rfl, fun h => ?_⟩
  rw [show check_model modelProbaNoPredict = Except.error CheckError.unsupportedModel
    from rfl] at h
  exact Except.noConfusion h

/-- C5 amended: for every model with the predict capability exposing
predict_proba and whose class set reads as the empty sequence,
`check_model` returns classification with the class labels `[0, 1]`. -/
theorem check_model_empty_classes_amended (m : Model) (hp : m.hasPredict = true)
    (hq : m.hasPredictProba = true) (hr : resolvedClasses m = some []) :
    check_model m = Except.ok (Case.classification, some [0, 1]) := by
  have hc : coercedClasses m = some [0, 1] := by
    unfold coercedClasses
    rw [if_pos ⟨hq, hr⟩]
  have h := check_model_ok_cls m hp (Or.inl hq) (by simp [hc]) (by simp [hc])
  rw [hc] at h
  exact h

/-- A catboost-like binary model: predict, predict_proba and an empty
ndarray in the attribute `_classes`. -/
def modelCatboost : Model := ⟨true, true, some (PyClasses.ndarray []), none⟩

/-- C5 amended witness: the catboost-like model gets the binary default
class labels. -/
theorem check_model_empty_classes_amended_witness :
    check_model modelCatboost = Except.ok (Case.classification, some [0, 1]) :=
  check_model_empty_classes_amended modelCatboost rfl rfl (by decide)

/-- A model with predict and an empty classes_ list but without
predict_proba. -/
def modelEmptyNoProba : Model := ⟨true, false, none, some (PyClasses.pylist [])⟩

/-- C6 counterexample: a model with the predict capability exposing a
class-set attribute holding the empty list, but no predict_proba, is
reported by `check_model` as regression, not classification. -/
theorem check_model_classattr_cex :
    check_model modelEmptyNoProba = Except.ok (Case.regression, none) ∧
    Case.regression ≠ Case.classification :=
  ⟨rfl, by decide⟩

/-- C6 amended: for every model with the predict capability that exposes
predict_proba or a class-set attribute, and whose class set, after the
empty-to-binary coercion, is neither missing nor empty, `check_model`
returns classification with that class sequence. -/
theorem check_model_classattr_amended (m : Model) (hp : m.hasPredict = true)
    (hB : m.hasPredictProba = true ∨ m.uclasses.isSome = true ∨ m.classes_.isSome = true)
    (h1 : coercedClasses m ≠ none) (h2 : coercedClasses m ≠ some []) :
    check_model m = Except.ok (Case.classification, coercedClasses m) :=
  check_model_ok_cls m hp hB h1 h2

/-- A three-class model exposing classes_ without predict_proba. -/
def modelThreeClasses : Model := ⟨true, false, none, some (PyClasses.pylist [1, 2, 3])⟩

/-- C6 amended witness: the three-class model is reported as
classification with its class list. -/
theorem check_model_classattr_amended_witness :
    check_model modelThreeClasses = Except.ok (Case.classification, some [1, 2, 3]) := by
  have hc : coercedClasses modelThreeClasses = some [1, 2, 3] := by decide
  have h := check_model_classattr_amended modelThreeClasses rfl (Or.inr (Or.inr rfl))
    (by decide) (by decide)
  rw [hc] at h
  exact h

/-- Helper: a list of length at most one with a first element is the
singleton of that element. -/
theorem list_singleton_of_head {α : Type} {l : List α} {c : α} (hl : ¬ l.length > 1)
    (hc : l.head? = some c) : l = [c] := by
  cases l with
  | nil => exact Option.noConfusion hc
  | cons a t =>
    rw [List.head?_cons] at hc
    injection hc with hac
    cases t with
    | nil => rw [hac]
    | cons b t2 => exact absurd (by simp) hl

/-- C2: `check_ypred` on a numeric series index-aligned with `x` returns
the one-column frame with the same values and index; on a series or frame
whose index differs from the index of `x` in any entry or in order it
raises the index-mismatch error; and whenever it returns normally the
result is either `none` or a one-column numeric frame whose index equals
the index of `x`. -/
theorem check_ypred_spec (x : DFrame) :
    (∀ s : PSeries, numericDtype s.dtype = true → s.index = x.index →
      check_ypred x (some (YpredVal.series s)) =
        Except.ok (some ⟨s.index, [(s.dtype, s.values)]⟩)) ∧
    (∀ s : PSeries, s.index ≠ x.index →
      check_ypred x (some (YpredVal.series s)) = Except.error CheckError.indexMismatch) ∧
    (∀ df : DFrame, df.index ≠ x.index →
      check_ypred x (some (YpredVal.frame df)) = Except.error CheckError.indexMismatch) ∧
    (check_ypred x none = Except.ok none) ∧
    (∀ (yp : Option YpredVal) (r : Option DFrame), check_ypred x yp = Except.ok r →
      r = none ∨ ∃ (dt : Dtype) (vs : List Int),
        r = some ⟨x.index, [(dt, vs)]⟩ ∧ numericDtype dt = true) := by
  refine ⟨?_, ?_, ?_, rfl, ?_⟩
  · intro s hd hi
    show (if s.index ≠ x.index then Except.error CheckError.indexMismatch
      else if numericDtype s.dtype = true then Except.ok (some s.toFrame)
      else Except.error CheckError.typeError) = Except.ok (some ⟨s.index, [(s.dtype, s.values)]⟩)
    rw [if_neg (fun h => h hi), if_pos hd]
    rfl
  · intro s hi
    show (if s.index ≠ x.index then Except.error CheckError.indexMismatch
      else if numericDtype s.dtype = true then Except.ok (some s.toFrame)
      else Except.error CheckError.typeError) = Except.error CheckError.indexMismatch
    rw [if_pos hi]
  · intro df hi
    show (if df.index ≠ x.index then Except.error CheckError.indexMismatch
      else if df.cols.length > 1 then Except.error CheckError.typeError
      else match df.cols.head? with
        | none => Except.error CheckError.keyError
        | some c =>
          if numericDtype c.1 = true then Except.ok (some df)
          else Except.error CheckError.typeError) = Except.error CheckError.indexMismatch
    rw [if_pos hi]
  · intro yp r h
    cases yp with
    | none =>
      left
      injection h with h2
      exact h2.symm
    | some v =>
      cases v with
      | nonTabular => exact Except.noConfusion h
      | frame df =>
        obtain ⟨di, dc⟩ := df
        replace h : (if di ≠ x.index then Except.error CheckError.indexMismatch
          else if dc.length > 1 then Except.error CheckError.typeError
          else match dc.head? with
            | none => Except.error CheckError.keyError
            | some c =>
              if numericDtype c.1 = true then Except.ok (some ⟨di, dc⟩)
              else Except.error CheckError.typeError) = Except.ok r := h
        by_cases hi : di ≠ x.index
        · rw [if_pos hi] at h; exact Except.noConfusion h
        · rw [if_neg hi] at h
          by_cases hl : dc.length > 1
          · rw [if_pos hl] at h; exact Except.noConfusion h
          · rw [if_neg hl] at h
            rcases dc with _ | ⟨a, _ | ⟨b, t2⟩⟩
            · exact Except.noConfusion h
            · replace h : (if numericDtype a.1 = true then Except.ok (some ⟨di, [a]⟩)
                else Except.error CheckError.typeError) = Except.ok r := h
              by_cases hd : numericDtype a.1 = true
              · rw [if_pos hd] at h
                injection h with h2
                right
                obtain ⟨a1, a2⟩ := a
                exact ⟨a1, a2, by rw [← h2, not_ne_iff.1 hi], hd⟩
              · rw [if_neg hd] at h; exact Except.noConfusion h
            · exact absurd (by simp) hl
      | series s =>
        replace h : (if s.index ≠ x.index then Except.error CheckError.indexMismatch
          else if numericDtype s.dtype = true then Except.ok (some s.toFrame)
          else Except.error CheckError.typeError) = Except.ok r := h
        by_cases hi : s.index ≠ x.index
        · rw [if_pos hi] at h; exact Except.noConfusion h
        · rw [if_neg hi] at h
          by_cases hd : numericDtype s.dtype = true
          · rw [if_pos hd] at h
            injection h with h2
            right
            refine ⟨s.dtype, s.values, ?_, hd⟩
            rw [← h2, PSeries.toFrame, not_ne_iff.1 hi]
          · rw [if_neg hd] at h; exact Except.noConfusion h

/-- The feature table of the C2 witness. -/
def xW : DFrame := ⟨[10, 11], [(Dtype.npFloat, [5, 6])]⟩

/-- A well-formed integer prediction series aligned with `xW`. -/
def sW : PSeries := ⟨[10, 11], Dtype.npInt, [1, 2]⟩

/-- A prediction series whose index has the entries of `xW` in the other
order. -/
def sBad : PSeries := ⟨[11, 10], Dtype.npInt, [1, 2]⟩

/-- C2 witness: the aligned series is normalised to a one-column frame;
the reordered series raises the index-mismatch error. -/
theorem check_ypred_spec_witness :
    check_ypred xW (some (YpredVal.series sW)) =
      Except.ok (some ⟨[10, 11], [(Dtype.npInt, [1, 2])]⟩) ∧
    check_ypred xW (some (YpredVal.series sBad)) = Except.error CheckError.indexMismatch :=
  ⟨(check_ypred_spec xW).1 sW rfl rfl,
   (check_ypred_spec xW).2.1 sBad (by decide)⟩

/-- C8: `check_consistency_model_features` raises the
inconsistent-dictionary error whenever the key set of the features-types
mapping differs from the value set of the columns dictionary, whatever
the other arguments are; with the scenario columns age and income typed
as num and matching expected model features it passes, and after dropping
income from the features-types mapping it raises the
inconsistent-dictionary error. -/
theorem check_consistency_features_step2 :
    (∀ (features_dict : Option (List (String × String)))
      (model_features : Sum (List String) Nat)
      (columns_dict : List (Nat × String)) (features_types : List (String × String))
      (mask_params : Option MaskParams) (preprocessing : Preproc),
      (features_types.map Prod.fst).toFinset ≠ (columns_dict.map Prod.snd).toFinset →
      check_consistency_model_features features_dict model_features columns_dict features_types
        mask_params preprocessing = Except.error CheckError.inconsistentDictionary) ∧
    (check_consistency_model_features none (Sum.inl ["age", "income"])
      [(0, "age"), (1, "income")] [("age", "num"), ("income", "num")] none Preproc.pnone =
      Except.ok ()) ∧
    (check_consistency_model_features none (Sum.inl ["age", "income"])
      [(0, "age"), (1, "income")] [("age", "num")] none Preproc.pnone =
      Except.error CheckError.inconsistentDictionary) := by
  refine ⟨?_, rfl, rfl⟩
  intro fd mf cd fts mp pp h
  unfold check_consistency_model_features
  by_cases h1 : featuresDictConform fd fts = false
  · rw [if_pos h1]
  · rw [if_neg h1, if_pos h]

/-- C8 witness: a feature missing from the columns dictionary triggers
the inconsistent-dictionary error through the general statement. -/
theorem check_consistency_features_step2_witness :
    check_consistency_model_features none (Sum.inr 2) [(0, "age")]
      [("age", "num"), ("inc", "num")] none Preproc.pnone =
      Except.error CheckError.inconsistentDictionary :=
  check_consistency_features_step2.1 none (Sum.inr 2) [(0, "age")]
    [("age", "num"), ("inc", "num")] none Preproc.pnone (by decide)

end ShapashCheck
